import Mathlib

/-!
Verification development for the Tauri configuration script
`scripts/configure-tauri.mjs` of the Pake repository.

The script is shallowly embedded as pure Lean functions.  External
collaborators (the `axios` HTTP client, the `sharp` raster pipeline, the
`icon-gen` composite-icon generator) are modelled by an oracle `World`
that decides whether each call succeeds, and by free constructors of
`IconData` describing the bytes each capability produces.  The
filesystem is an association list from paths to `IconData`, and every
observable side effect (network fetch, image-conversion call, file
write, file copy, composite-icon generation, warning or error log) is
recorded in an event trace, so that frame conditions ("no conversion
call occurs", "no file is written") are provable statements about the
trace.
-/

namespace Pake

/-- JS `String.prototype.endsWith`, on character lists. -/
def endsW (s suf : String) : Bool := suf.data.isSuffixOf s.data

/-- JS `String.prototype.startsWith`, on character lists. -/
def startsW (s pre : String) : Bool := pre.data.isPrefixOf s.data

/-- The process environment: a partial map from variable names to values.
`none` means the variable is absent (`key in process.env` is false);
`some ""` means present with empty value. -/
abbrev Env : Type := String → Option String

/-- JS truthiness of an environment-variable read: `undefined` and the
empty string are falsy. -/
def truthy : Option String → Bool
  | some s => !(s == "")
  | none => false

/-- JS template-literal interpolation of a possibly-undefined value:
`undefined` prints as the string "undefined". -/
def jsTemplate : Option String → String
  | some s => s
  | none => "undefined"

/-- JS `parseInt` on the strings this script feeds it: trim, optional
sign, longest digit prefix; `none` models `NaN`. -/
def parseIntJS (s : String) : Option Int :=
  let t := s.trim
  let neg := startsW t "-"
  let rest := if neg || startsW t "+" then t.drop 1 else t
  let digits := rest.takeWhile Char.isDigit
  (digits.toNat?).map (fun n => if neg then -(n : Int) else (n : Int))

/-- Symbolic file contents.  Pre-existing files are `raw`; the other
constructors record which capability produced the bytes, so "copied
verbatim" versus "re-encoded through the raster pipeline" is decidable
from the data itself. -/
inductive IconData where
  | raw (tag : String)
  | downloaded (url : String)
  | resized (src : IconData) (w h : Nat)
  | pngEnc (src : IconData) (level : Nat)
  | rgba (src : IconData)
  | icoGen (src : IconData) (sizes : List Nat)
  | textFile (s : String)
  | jsonOut (tag : String)
  deriving DecidableEq, Repr

/-- Bytes produced by the single-raster resize/re-encode pipeline
(`sharp`), as opposed to verbatim copies or composite generation. -/
def reencoded : IconData → Bool
  | IconData.resized _ _ _ => true
  | IconData.pngEnc _ _ => true
  | IconData.rgba _ => true
  | _ => false

/-- Observable side effects, in chronological order. -/
inductive Event where
  | netFetch (url : String)
  | sharpOp (input : IconData)
  | icongenCall (src dir nm : String) (sizes : List Nat)
  | fsWrite (path : String) (data : IconData)
  | fsCopy (src dst : String)
  | logWarn (msg : String)
  | logErr (msg : String)
  deriving DecidableEq, Repr

abbrev FS : Type := List (String × IconData)

def lookupFS : FS → String → Option IconData
  | [], _ => none
  | (p, d) :: rest, q => if p = q then some d else lookupFS rest q

def setFS : FS → String → IconData → FS
  | [], p, d => [(p, d)]
  | (q, e) :: rest, p, d => if q = p then (p, d) :: rest else (q, e) :: setFS rest p d

/-- `fs.existsSync`. -/
def existsFS (fs : FS) (p : String) : Bool := (lookupFS fs p).isSome

/-- Filesystem plus event trace. -/
structure St where
  fs : FS
  events : List Event

def emit (st : St) (e : Event) : St :=
  { st with events := st.events ++ [e] }

/-- `fs.writeFileSync`. -/
def writeF (st : St) (p : String) (d : IconData) : St :=
  { fs := setFS st.fs p d, events := st.events ++ [Event.fsWrite p d] }

/-- `fs.copyFileSync`: the destination receives the source bytes
verbatim.  Only ever invoked under an `existsSync` guard in the script,
so the missing-source case is inert. -/
def copyF (st : St) (src dst : String) : St :=
  match lookupFS st.fs src with
  | some d => { fs := setFS st.fs dst d, events := st.events ++ [Event.fsCopy src dst] }
  | none => st

/-- Success oracle for the external capabilities. -/
structure World where
  axiosAvailable : Bool
  fetchOk : String → Bool
  sharpOk : IconData → Bool
  icongenOk : Bool

/-- `requiredEnvVars`. -/
def requiredEnvVars : List String := ["URL", "NAME", "TITLE", "NAME_ZH"]

/-- The variables `validateEnvironment` reports as missing: presence of
the key is tested, not the value. -/
def missingVars (env : Env) : List String :=
  requiredEnvVars.filter (fun k => (env k).isNone)

def nameStr (env : Env) : String := jsTemplate (env "NAME")

/-- `CONFIG.identifier`. -/
def identifierOf (env : Env) : String := "com.pake." ++ nameStr env

/-- `CONFIG.productName`. -/
def productNameOf (env : Env) : String := "com-pake-" ++ nameStr env

/-- `downloadIcon(url, destinationPath)`.  Returns the JS boolean result
together with the updated state.  For a `.ico` destination the
downloaded bytes are kept verbatim; a `.png` destination is resized and
png-encoded; any other destination is resized without png encoding; a
conversion failure is caught and the original downloaded bytes are
written instead. -/
def downloadIcon (w : World) (url destinationPath : String) (st : St) : Bool × St :=
  if !w.axiosAvailable then
    (false, emit st (Event.logErr "Cannot download icon: axios not available"))
  else if !w.fetchOk url then
    (false, emit (emit st (Event.netFetch url)) (Event.logErr "Failed to download icon"))
  else
    let st := emit st (Event.netFetch url)
    let buffer := IconData.downloaded url
    let isIco := endsW destinationPath ".ico"
    let isPng := endsW destinationPath ".png"
    let r : IconData × St :=
      if isPng then
        let st := emit st (Event.sharpOp buffer)
        if w.sharpOk buffer then (IconData.pngEnc (IconData.resized buffer 512 512) 9, st)
        else (buffer, emit st (Event.logWarn "Icon conversion failed, using original"))
      else if !isIco then
        let st := emit st (Event.sharpOp buffer)
        if w.sharpOk buffer then (IconData.resized buffer 512 512, st)
        else (buffer, emit st (Event.logWarn "Icon conversion failed, using original"))
      else (buffer, st)
    (true, writeF r.2 destinationPath r.1)

/-- `ensureRgbaPng(iconPath)`: re-encode the file in place with an
explicit alpha channel; a failure is caught and logged. -/
def ensureRgbaPng (w : World) (iconPath : String) (st : St) : St :=
  match lookupFS st.fs iconPath with
  | none => emit st (Event.logWarn "Failed to normalize to RGBA")
  | some d =>
    let st := emit st (Event.sharpOp d)
    if w.sharpOk d then writeF st iconPath (IconData.rgba d)
    else emit st (Event.logWarn "Failed to normalize to RGBA")

/-- The `possibleSources` list of `ensureIconExists`. -/
def possibleSources (defaultPath : String) : List String :=
  ["src-tauri/icons/icon.icns", "src-tauri/png/icon_512.png",
   "src-tauri/png/icon_32.ico", defaultPath]

/-- The source-search loop of `ensureIconExists`: try each existing
source in order; `.ico` targets are copied verbatim, other targets are
resized (and png-encoded when the target is `.png`); a conversion
failure is caught and the loop continues with the next source.  Returns
`sourceFound`. -/
def trySources (w : World) (iconPath : String) (isPng isIco : Bool) :
    List String → St → Bool × St
  | [], st => (false, st)
  | source :: rest, st =>
    match lookupFS st.fs source with
    | none => trySources w iconPath isPng isIco rest st
    | some data =>
      if isIco then
        (true, copyF st source iconPath)
      else
        let size := if isPng then 512 else 256
        let st := emit st (Event.sharpOp data)
        if w.sharpOk data then
          let buffer := IconData.resized data size size
          if isPng then
            let st := emit st (Event.sharpOp buffer)
            if w.sharpOk buffer then
              (true, writeF st iconPath (IconData.pngEnc buffer 9))
            else
              trySources w iconPath isPng isIco rest
                (emit st (Event.logWarn "Failed to generate icon from source"))
          else
            (true, writeF st iconPath buffer)
        else
          trySources w iconPath isPng isIco rest
            (emit st (Event.logWarn "Failed to generate icon from source"))

/-- The remote-fetch tier of `ensureIconExists`: only entered when the
`ICON` variable is truthy and starts with "http". -/
def tier2 (w : World) (env : Env) (iconPath : String) (st : St) : Bool × St :=
  match env "ICON" with
  | some ic =>
    if truthy (some ic) && startsW ic "http" then downloadIcon w ic iconPath st
    else (false, st)
  | none => (false, st)

/-- The known-source and default-copy tiers of `ensureIconExists`. -/
def tier34 (w : World) (iconPath defaultPath : String) (created : Bool) (st : St) :
    Bool × St :=
  let isPng := endsW iconPath ".png"
  let isIco := endsW iconPath ".ico"
  let r := trySources w iconPath isPng isIco (possibleSources defaultPath) st
  if r.1 then (true, r.2)
  else if existsFS r.2.fs defaultPath then
    (true, copyF (emit r.2 (Event.logWarn "Using default icon")) defaultPath iconPath)
  else (created, r.2)

/-- The trailing RGBA-normalisation step of `ensureIconExists`. -/
def rgbaStep (w : World) (iconPath : String) (ensureRgba created : Bool) (st : St) : St :=
  if ensureRgba && created && existsFS st.fs iconPath && endsW iconPath ".png" then
    ensureRgbaPng w iconPath st
  else st

/-- `ensureIconExists(iconPath, defaultPath, description, ensureRgba)`.
If the path already exists the tiers are skipped and `iconCreated` is
true; otherwise the remote-fetch tier, the known-source tier and the
default-copy tier run in order. -/
def ensureIconExists (w : World) (env : Env) (iconPath defaultPath : String)
    (ensureRgba : Bool) (st : St) : St :=
  if existsFS st.fs iconPath then
    rgbaStep w iconPath ensureRgba true st
  else
    let p := tier2 w env iconPath st
    let q := if existsFS p.2.fs iconPath then p
             else tier34 w iconPath defaultPath p.1 p.2
    rgbaStep w iconPath ensureRgba q.1 q.2

/-! ### Configuration objects -/

/-- `pakeJson.windows[0]`. -/
structure PakeWindow where
  url : Option String
  width : Option Int
  height : Option Int
  fullscreen : Bool
  hide_title_bar : Bool
  force_internal_navigation : Bool
  deriving DecidableEq, Repr

/-- `pakeJson.system_tray`. -/
structure SysTray where
  macos : Bool
  linux : Bool
  windows : Bool
  deriving DecidableEq, Repr

/-- The `pake.json` object.  The `identifier` and `productName` fields
are `Option` so that a template that lacks them is representable; the
script never assigns either field on this object. -/
structure PakeConfig where
  windows0 : PakeWindow
  system_tray : SysTray
  system_tray_path : Option String
  identifier : Option String
  productName : Option String
  deriving DecidableEq, Repr

/-- The `tauri.conf.json` object.  `trayIcon` models
`tauriJson.app.trayIcon` (its `iconPath`); `none` means the template has
no `app.trayIcon`. -/
structure TauriConfig where
  productName : Option String
  identifier : Option String
  trayIcon : Option String
  deriving DecidableEq, Repr

/-- The `bundle` object of a platform configuration.  Modelled from the
spec: the per-platform template files (not part of the embedded source)
contain a bundle object, so the `if (!platformConfig.bundle)` guard of
`updatePlatformConfig` is inert. -/
structure Bundle where
  icon : List String
  resources : List String
  debFiles : List (String × String)
  deriving DecidableEq, Repr

/-- A `tauri.<platform>.conf.json` object. -/
structure PlatConfig where
  bundle : Bundle
  identifier : Option String
  productName : Option String
  deriving DecidableEq, Repr

/-- `updatePlatformConfig(platformConfig, platformVars)`. -/
def updatePlatformConfig (env : Env) (pc : PlatConfig) (icons : List String) :
    PlatConfig :=
  { pc with
    bundle := { pc.bundle with icon := icons },
    identifier := some (identifierOf env),
    productName := env "TITLE" }

/-- A JS truthiness-guarded assignment `if (process.env.X) field = f(X)`:
when the variable is absent or empty the old field value is kept. -/
def applyOpt {α : Type} (v : Option String) (f : String → α) (old : α) : α :=
  match v with
  | some s => if s ≠ "" then f s else old
  | none => old

/-- The `pake.json` window mutations of `updateBaseConfigs`: the URL is
assigned unconditionally, the five overrides only when their variable is
truthy.  (The sequential JS assignments target distinct fields, so they
are rendered as one simultaneous record update.) -/
def updateWindow (env : Env) (w : PakeWindow) : PakeWindow :=
  { url := env "URL"
    width := applyOpt (env "WIDTH") parseIntJS w.width
    height := applyOpt (env "HEIGHT") parseIntJS w.height
    fullscreen := applyOpt (env "FULLSCREEN") (fun s => s == "true") w.fullscreen
    hide_title_bar := applyOpt (env "HIDE_TITLE_BAR") (fun s => s == "true") w.hide_title_bar
    force_internal_navigation :=
      applyOpt (env "FORCE_INTERNAL_NAVIGATION") (fun s => s == "true")
        w.force_internal_navigation }

/-- The `tauri.conf.json` mutations of `updateBaseConfigs`. -/
def updateTauri (env : Env) (t : TauriConfig) : TauriConfig :=
  { productName := env "TITLE"
    identifier := some (identifierOf env)
    trayIcon := match t.trayIcon with
      | some _ => some ("png/" ++ nameStr env ++ "_512.png")
      | none => none }

/-- `updateBaseConfigs()`: mutate `pake.json` and `tauri.conf.json` from
the environment.  The URL, product name and identifier are assigned
unconditionally; every other override is guarded by JS truthiness of its
environment variable. -/
def updateBaseConfigs (env : Env) (pake : PakeConfig) (tauri : TauriConfig) :
    PakeConfig × TauriConfig :=
  ({ pake with
      windows0 := updateWindow env pake.windows0
      system_tray := applyOpt (env "SHOW_SYSTEM_TRAY")
        (fun s => SysTray.mk (s == "true") (s == "true") (s == "true")) pake.system_tray
      system_tray_path := if truthy pake.system_tray_path then
          some ("icons/" ++ nameStr env ++ ".png")
        else pake.system_tray_path },
   updateTauri env tauri)

/-! ### Platform handlers and main -/

structure Sys where
  st : St
  pake : PakeConfig
  tauri : TauriConfig
  linuxConf : PlatConfig
  macosConf : PlatConfig
  windowsConf : PlatConfig

def linuxIconPath (env : Env) : String := "src-tauri/png/" ++ nameStr env ++ "_512.png"

def linuxIcons (env : Env) : List String := ["png/" ++ nameStr env ++ "_512.png"]

def desktopEntryPath (env : Env) : String :=
  "src-tauri/assets/" ++ productNameOf env ++ ".desktop"

def desktopKey (env : Env) : String :=
  "/usr/share/applications/" ++ productNameOf env ++ ".desktop"

def desktopValue (env : Env) : String :=
  "assets/" ++ productNameOf env ++ ".desktop"

/-- `CONFIG.platforms.linux.desktopEntry`. -/
def desktopEntryText (env : Env) : String :=
  "[Desktop Entry]\nEncoding=UTF-8\nCategories=Office\nExec=" ++ productNameOf env ++
  "\nIcon=" ++ productNameOf env ++ "\nName=" ++ productNameOf env ++
  "\nName[zh_CN]=" ++ jsTemplate (env "NAME_ZH") ++
  "\nStartupNotify=true\nTerminal=false\nType=Application\n"

/-- `platformHandlers.linux`. -/
def linuxHandler (w : World) (env : Env) (sys : Sys) : Sys :=
  let st := ensureIconExists w env (linuxIconPath env) "src-tauri/png/icon_512.png" true sys.st
  let lc := { sys.linuxConf with
    bundle := { sys.linuxConf.bundle with debFiles := [(desktopKey env, desktopValue env)] } }
  let st := writeF st (desktopEntryPath env) (IconData.textFile (desktopEntryText env))
  let lc := updatePlatformConfig env lc (linuxIcons env)
  { sys with st := st, linuxConf := lc }

def darwinIconPath (env : Env) : String := "src-tauri/icons/" ++ nameStr env ++ ".icns"

def darwinIcons (env : Env) : List String := ["icons/" ++ nameStr env ++ ".icns"]

/-- The `macosIcons` sizes: the size of each path is what the script
extracts from the filename with its regular expression. -/
def macosIconSizes : List (String × Nat) :=
  [("src-tauri/png/icon_128.png", 128),
   ("src-tauri/png/icon_256.png", 256),
   ("src-tauri/png/icon_512.png", 512)]

/-- The macOS source-preference order. -/
def macPossibleSources (env : Env) : List String :=
  [darwinIconPath env, "src-tauri/png/icon_512.png", "src-tauri/png/icon_256.png",
   "src-tauri/png/icon_128.png", "src-tauri/icons/icon.icns"]

/-- The macOS intermediate-size generation loop: each missing size is
resized and png-encoded from `sourceIcon`; a failure is caught and
logged. -/
def genMacIcons (w : World) (sourceIcon : String) :
    List (String × Nat) → St → St
  | [], st => st
  | (p, size) :: rest, st =>
    if existsFS st.fs p then genMacIcons w sourceIcon rest st
    else
      match lookupFS st.fs sourceIcon with
      | none =>
        genMacIcons w sourceIcon rest
          (emit st (Event.logWarn "Failed to generate macOS icon"))
      | some d =>
        let st := emit st (Event.sharpOp d)
        if w.sharpOk d then
          genMacIcons w sourceIcon rest
            (writeF st p (IconData.pngEnc (IconData.resized d size size) 9))
        else
          genMacIcons w sourceIcon rest
            (emit st (Event.logWarn "Failed to generate macOS icon"))

/-- `platformHandlers.darwin`. -/
def darwinHandler (w : World) (env : Env) (sys : Sys) : Sys :=
  let st := ensureIconExists w env (darwinIconPath env) "src-tauri/icons/icon.icns" false sys.st
  let st := match (macPossibleSources env).find? (fun s => existsFS st.fs s) with
    | some src => genMacIcons w src macosIconSizes st
    | none => st
  let mc := updatePlatformConfig env sys.macosConf (darwinIcons env)
  { sys with st := st, macosConf := mc }

def basePngOf (env : Env) : String := "src-tauri/png/" ++ nameStr env ++ "_512.png"

def icoPathOf (env : Env) : String := "src-tauri/png/" ++ nameStr env ++ "_256.ico"

def winIcons (env : Env) : List String := ["png/" ++ nameStr env ++ "_256.ico"]

def winDefaultIcon : String := "src-tauri/png/icon_256.ico"

def icoSizes : List Nat := [16, 32, 48, 64, 128, 256]

/-- The ICO-generation step of `platformHandlers.win32`: `icon-gen` is
invoked only when the ICO target is still missing; its success
additionally requires the base PNG to exist (the generator fails on a
missing input file); on failure the default composite icon is copied
when present. -/
def winIcoStage (w : World) (env : Env) (st : St) : St :=
  if existsFS st.fs (icoPathOf env) then st
  else
    let st := emit st
      (Event.icongenCall (basePngOf env) "src-tauri/png" (nameStr env ++ "_256") icoSizes)
    match lookupFS st.fs (basePngOf env) with
    | some d =>
      if w.icongenOk then writeF st (icoPathOf env) (IconData.icoGen d icoSizes)
      else
        let st := emit st (Event.logWarn "Failed to generate Windows ICO")
        if existsFS st.fs winDefaultIcon then
          copyF (emit st (Event.logWarn "Falling back to default Windows icon"))
            winDefaultIcon (icoPathOf env)
        else st
    | none =>
      let st := emit st (Event.logWarn "Failed to generate Windows ICO")
      if existsFS st.fs winDefaultIcon then
        copyF (emit st (Event.logWarn "Falling back to default Windows icon"))
          winDefaultIcon (icoPathOf env)
      else st

/-- `platformHandlers.win32`. -/
def win32Handler (w : World) (env : Env) (sys : Sys) : Sys :=
  let st := ensureIconExists w env (basePngOf env) "src-tauri/png/icon_512.png" true sys.st
  let st := winIcoStage w env st
  let wc := { sys.windowsConf with
    bundle := { sys.windowsConf.bundle with resources := winIcons env } }
  let wc := updatePlatformConfig env wc (winIcons env)
  { sys with st := st, windowsConf := wc }

/-- The five files rewritten by `saveConfigurations()`. -/
def configPaths : List String :=
  ["src-tauri/pake.json", "src-tauri/tauri.conf.json", "src-tauri/tauri.linux.conf.json",
   "src-tauri/tauri.macos.conf.json", "src-tauri/tauri.windows.conf.json"]

/-- `saveConfigurations()`: serialise and write the five configuration
files. -/
def saveConfigurations (sys : Sys) : Sys :=
  { sys with st := configPaths.foldl (fun st p => writeF st p (IconData.jsonOut p)) sys.st }

/-- `main()`.  Returns the process exit code and the final system state.
A failed environment validation exits before any mutation; an
unrecognised platform throws after the in-memory base-config mutation
but before any file is written. -/
def main (w : World) (env : Env) (platform : String) (sys : Sys) : Nat × Sys :=
  if (missingVars env).isEmpty then
    let bc := updateBaseConfigs env sys.pake sys.tauri
    let sys := { sys with pake := bc.1, tauri := bc.2 }
    if platform = "linux" then (0, saveConfigurations (linuxHandler w env sys))
    else if platform = "darwin" then (0, saveConfigurations (darwinHandler w env sys))
    else if platform = "win32" then (0, saveConfigurations (win32Handler w env sys))
    else (1, sys)
  else (1, sys)

/-! ### Event predicates and concrete fixtures -/

/-- The composite-icon generator invocations in a trace. -/
def isIcongenEv : Event → Bool
  | Event.icongenCall _ _ _ _ => true
  | _ => false

/-- The network fetches in a trace. -/
def isNetFetchEv : Event → Bool
  | Event.netFetch _ => true
  | _ => false

/-- A write of re-encoded (single-raster pipeline) bytes to `target`. -/
def isBadWrite (target : String) : Event → Bool
  | Event.fsWrite p d => p == target && reencoded d
  | _ => false

/-- The environment with the `ICON` variable removed. -/
def dropIcon (env : Env) : Env := fun k => if k = "ICON" then none else env k

def wAll : World := ⟨true, fun _ => true, fun _ => true, true⟩

def wNoSharp : World := ⟨true, fun _ => true, fun _ => false, true⟩

def wNoFetch : World := ⟨true, fun _ => false, fun _ => true, false⟩

def wNoSharpNoGen : World := ⟨true, fun _ => true, fun _ => false, false⟩

def envFoo : Env := fun k =>
  if k = "URL" then some "https://example.com"
  else if k = "NAME" then some "Foo"
  else if k = "TITLE" then some "FooTitle"
  else if k = "NAME_ZH" then some "FooZh"
  else none

def envFooIcon : Env := fun k =>
  if k = "ICON" then some "http://x/i.png" else envFoo k

def envLocalIcon : Env := fun k =>
  if k = "ICON" then some "./local-icon.png" else none

def envEmptyVals : Env := fun k =>
  if k = "URL" || k = "NAME" || k = "TITLE" || k = "NAME_ZH" then some "" else none

def envNone : Env := fun _ => none

def st0 : St := ⟨[], []⟩

def pake0 : PakeConfig :=
  ⟨⟨none, none, none, false, false, false⟩, ⟨false, false, false⟩,
   some "icons/icon.png", none, none⟩

def tauri0 : TauriConfig := ⟨some "Pake", some "com.pake.default", some "png/icon_512.png"⟩

def plat0 : PlatConfig := ⟨⟨[], [], []⟩, none, none⟩

def sys0 : Sys := ⟨st0, pake0, tauri0, plat0, plat0, plat0⟩

/-- A system whose disk holds only the default Windows composite icon. -/
def sysW : Sys :=
  { sys0 with st := ⟨[("src-tauri/png/icon_256.ico", IconData.raw "dico")], []⟩ }

/-- A disk already holding both the app base PNG and the app ICO. -/
def fsC7 : FS :=
  [("src-tauri/png/Foo_512.png", IconData.raw "base"),
   ("src-tauri/png/Foo_256.ico", IconData.raw "ico")]

def sysC7 : Sys := { sys0 with st := ⟨fsC7, []⟩ }

/-! ### Helper lemmas -/

/-- Two suffixes of the same string with equal lengths are equal. -/
theorem endsW_disjoint {s a b : String} (ha : endsW s a = true) (hb : endsW s b = true)
    (hlen : a.data.length = b.data.length) : a.data = b.data := by
  unfold endsW at ha hb
  rw [List.isSuffixOf_iff_suffix] at ha hb
  rcases List.suffix_or_suffix_of_suffix ha hb with h | h
  · exact h.eq_of_length hlen
  · exact (h.eq_of_length hlen.symm).symm

/-- A path ending in `.ico` does not end in `.png`. -/
theorem ico_not_png {s : String} (h : endsW s ".ico" = true) : endsW s ".png" = false := by
  cases hp : endsW s ".png" with
  | false => rfl
  | true => exact absurd (endsW_disjoint h hp (by decide)) (by decide)

/-- Appending preserves a suffix of the right part. -/
theorem endsW_append_right {b c : String} (h : endsW b c = true) (a : String) :
    endsW (a ++ b) c = true := by
  unfold endsW at h ⊢
  rw [List.isSuffixOf_iff_suffix] at h ⊢
  rw [String.data_append]
  exact h.trans (List.suffix_append a.data b.data)

/-- Paths ending in `.png` and `.ico` are distinct. -/
theorem png_ne_ico {s t : String} (hs : endsW s ".png" = true) (ht : endsW t ".ico" = true) :
    s ≠ t := by
  intro h
  subst h
  exact absurd (endsW_disjoint hs ht (by decide)) (by decide)

theorem lookup_setFS (fs : FS) (q p : String) (d : IconData) :
    lookupFS (setFS fs q d) p = if q = p then some d else lookupFS fs p := by
  induction fs with
  | nil => simp [setFS, lookupFS]
  | cons hd tl ih =>
    obtain ⟨a, e⟩ := hd
    by_cases h1 : a = q
    · subst h1
      by_cases h2 : a = p <;> simp [setFS, lookupFS, h2]
    · by_cases h2 : a = p
      · subst h2
        have h1' : ¬q = a := fun h => h1 h.symm
        simp [setFS, lookupFS, h1, h1']
      · simp [setFS, lookupFS, h1, h2, ih]

theorem events_emit (st : St) (e : Event) : (emit st e).events = st.events ++ [e] := rfl

theorem fs_emit (st : St) (e : Event) : (emit st e).fs = st.fs := rfl

theorem writeF_frame (st : St) (q : String) (d : IconData) (p : String) (h : q ≠ p) :
    lookupFS (writeF st q d).fs p = lookupFS st.fs p := by
  simp [writeF, lookup_setFS, h]

theorem copyF_frame (st : St) (src dst p : String) (h : dst ≠ p) :
    lookupFS (copyF st src dst).fs p = lookupFS st.fs p := by
  unfold copyF
  cases hl : lookupFS st.fs src with
  | none => rfl
  | some d => simp [lookup_setFS, h]

/-! ### Trace-filter lemmas

For a predicate `p` that is false on every event a pipeline stage can
emit, the `p`-filtered trace of the stage's result equals that of its
input.  These compose to frame conditions like "icon resolution performs
no composite-icon generation". -/

theorem filter_app1 (p : Event → Bool) (l : List Event) (e : Event) (he : p e = false) :
    (l ++ [e]).filter p = l.filter p := by
  simp [List.filter_append, List.filter, he]

theorem copyF_filter (p : Event → Bool) (st : St) (src dst : String)
    (hc : ∀ s, p (Event.fsCopy s dst) = false) :
    ((copyF st src dst).events).filter p = st.events.filter p := by
  unfold copyF
  cases hl : lookupFS st.fs src with
  | none => rfl
  | some d => exact filter_app1 p st.events _ (hc src)

theorem downloadIcon_filter (p : Event → Bool) (w : World) (url dest : String) (st : St)
    (h1 : ∀ u, p (Event.netFetch u) = false)
    (h2 : ∀ m, p (Event.logErr m) = false)
    (h3 : ∀ m, p (Event.logWarn m) = false)
    (h4 : ∀ d, p (Event.sharpOp d) = false)
    (h5 : ∀ d, p (Event.fsWrite dest d) = false) :
    ((downloadIcon w url dest st).2.events).filter p = st.events.filter p := by
  unfold downloadIcon
  by_cases ha : w.axiosAvailable
  · by_cases hf : w.fetchOk url
    · by_cases hp : endsW dest ".png"
      · by_cases hs : w.sharpOk (IconData.downloaded url) <;>
          simp [ha, hf, hp, hs, emit, writeF, List.filter_append, List.filter,
            h1, h2, h3, h4, h5]
      · by_cases hi : endsW dest ".ico"
        · simp [ha, hf, hp, hi, emit, writeF, List.filter_append, List.filter,
            h1, h2, h3, h4, h5]
        · by_cases hs : w.sharpOk (IconData.downloaded url) <;>
            simp [ha, hf, hp, hi, hs, emit, writeF, List.filter_append, List.filter,
              h1, h2, h3, h4, h5]
    · simp [ha, hf, emit, List.filter_append, List.filter, h1, h2]
  · simp [ha, emit, List.filter_append, List.filter, h2]

theorem ensureRgbaPng_filter (p : Event → Bool) (w : World) (iconPath : String) (st : St)
    (h3 : ∀ m, p (Event.logWarn m) = false)
    (h4 : ∀ d, p (Event.sharpOp d) = false)
    (h5 : ∀ d, p (Event.fsWrite iconPath d) = false) :
    ((ensureRgbaPng w iconPath st).events).filter p = st.events.filter p := by
  unfold ensureRgbaPng
  cases hl : lookupFS st.fs iconPath with
  | none => exact filter_app1 p st.events _ (h3 _)
  | some d =>
    by_cases hs : w.sharpOk d <;>
      simp [hs, emit, writeF, List.filter_append, List.filter, h3, h4, h5]

theorem rgbaStep_filter (p : Event → Bool) (w : World) (iconPath : String)
    (r c : Bool) (st : St)
    (h3 : ∀ m, p (Event.logWarn m) = false)
    (h4 : ∀ d, p (Event.sharpOp d) = false)
    (h5 : ∀ d, p (Event.fsWrite iconPath d) = false) :
    ((rgbaStep w iconPath r c st).events).filter p = st.events.filter p := by
  unfold rgbaStep
  split
  · exact ensureRgbaPng_filter p w iconPath st h3 h4 h5
  · rfl

theorem trySources_filter (p : Event → Bool) (w : World) (iconPath : String)
    (isPng isIco : Bool) (srcs : List String) (st : St)
    (h3 : ∀ m, p (Event.logWarn m) = false)
    (h4 : ∀ d, p (Event.sharpOp d) = false)
    (h5 : ∀ d, p (Event.fsWrite iconPath d) = false)
    (hc : ∀ s, p (Event.fsCopy s iconPath) = false) :
    ((trySources w iconPath isPng isIco srcs st).2.events).filter p =
      st.events.filter p := by
  cases isIco with
  | true =>
    induction srcs generalizing st with
    | nil => rfl
    | cons s rest ih =>
      unfold trySources
      cases hl : lookupFS st.fs s with
      | none => exact ih st
      | some d => simpa using copyF_filter p st s iconPath hc
  | false =>
    cases isPng with
    | true =>
      induction srcs generalizing st with
      | nil => rfl
      | cons s rest ih =>
        unfold trySources
        cases hl : lookupFS st.fs s with
        | none => exact ih st
        | some d =>
          by_cases hs : w.sharpOk d
          · by_cases hs2 : w.sharpOk (IconData.resized d 512 512)
            · simp [hs, hs2, emit, writeF, List.filter_append, List.filter, h3, h4, h5]
            · simp only [hs, hs2, emit, if_true, if_false, Bool.false_eq_true,
                Bool.true_eq_false, ite_true, ite_false]
              rw [ih]
              simp [List.filter_append, List.filter, h3, h4]
          · simp only [emit, Bool.false_eq_true, ite_false, ite_true]
            rw [if_neg (by simpa using hs), ih]
            simp [List.filter_append, List.filter, h3, h4]
    | false =>
      induction srcs generalizing st with
      | nil => rfl
      | cons s rest ih =>
        unfold trySources
        cases hl : lookupFS st.fs s with
        | none => exact ih st
        | some d =>
          by_cases hs : w.sharpOk d
          · simp [hs, emit, writeF, List.filter_append, List.filter, h3, h4, h5]
          · simp only [emit, Bool.false_eq_true, ite_false, ite_true]
            rw [if_neg (by simpa using hs), ih]
            simp [List.filter_append, List.filter, h3, h4]

theorem tier2_filter (p : Event → Bool) (w : World) (env : Env) (iconPath : String) (st : St)
    (h1 : ∀ u, p (Event.netFetch u) = false)
    (h2 : ∀ m, p (Event.logErr m) = false)
    (h3 : ∀ m, p (Event.logWarn m) = false)
    (h4 : ∀ d, p (Event.sharpOp d) = false)
    (h5 : ∀ d, p (Event.fsWrite iconPath d) = false) :
    ((tier2 w env iconPath st).2.events).filter p = st.events.filter p := by
  unfold tier2
  cases hic : env "ICON" with
  | none => rfl
  | some ic =>
    dsimp only
    by_cases hcond : (truthy (some ic) && startsW ic "http") = true
    · rw [if_pos hcond]
      exact downloadIcon_filter p w ic iconPath st h1 h2 h3 h4 h5
    · rw [if_neg hcond]

theorem tier34_filter (p : Event → Bool) (w : World) (iconPath defaultPath : String)
    (created : Bool) (st : St)
    (h3 : ∀ m, p (Event.logWarn m) = false)
    (h4 : ∀ d, p (Event.sharpOp d) = false)
    (h5 : ∀ d, p (Event.fsWrite iconPath d) = false)
    (hc : ∀ s, p (Event.fsCopy s iconPath) = false) :
    ((tier34 w iconPath defaultPath created st).2.events).filter p =
      st.events.filter p := by
  unfold tier34
  dsimp only
  have htry := trySources_filter p w iconPath (endsW iconPath ".png") (endsW iconPath ".ico")
    (possibleSources defaultPath) st h3 h4 h5 hc
  split
  · exact htry
  · split
    · rw [copyF_filter p _ _ _ hc, events_emit, filter_app1 p _ _ (h3 _)]
      exact htry
    · exact htry

theorem ensureIconExists_filter (p : Event → Bool) (w : World) (env : Env)
    (iconPath defaultPath : String) (r : Bool) (st : St)
    (h1 : ∀ u, p (Event.netFetch u) = false)
    (h2 : ∀ m, p (Event.logErr m) = false)
    (h3 : ∀ m, p (Event.logWarn m) = false)
    (h4 : ∀ d, p (Event.sharpOp d) = false)
    (h5 : ∀ d, p (Event.fsWrite iconPath d) = false)
    (hc : ∀ s, p (Event.fsCopy s iconPath) = false) :
    ((ensureIconExists w env iconPath defaultPath r st).events).filter p =
      st.events.filter p := by
  unfold ensureIconExists
  dsimp only
  split
  · exact rgbaStep_filter p w iconPath r true st h3 h4 h5
  · rw [rgbaStep_filter p w iconPath r _ _ h3 h4 h5]
    split
    · exact tier2_filter p w env iconPath st h1 h2 h3 h4 h5
    · rw [tier34_filter p w iconPath defaultPath _ _ h3 h4 h5 hc]
      exact tier2_filter p w env iconPath st h1 h2 h3 h4 h5

/-! ### Filesystem frame lemmas: each icon-resolution stage writes only
its own target path. -/

theorem downloadIcon_fs_frame (w : World) (url dest : String) (st : St) (q : String)
    (h : dest ≠ q) :
    lookupFS (downloadIcon w url dest st).2.fs q = lookupFS st.fs q := by
  unfold downloadIcon
  by_cases ha : w.axiosAvailable
  · by_cases hf : w.fetchOk url
    · by_cases hp : endsW dest ".png"
      · by_cases hs : w.sharpOk (IconData.downloaded url) <;>
          simp [ha, hf, hp, hs, emit, writeF, lookup_setFS, h]
      · by_cases hi : endsW dest ".ico"
        · simp [ha, hf, hp, hi, emit, writeF, lookup_setFS, h]
        · by_cases hs : w.sharpOk (IconData.downloaded url) <;>
            simp [ha, hf, hp, hi, hs, emit, writeF, lookup_setFS, h]
    · simp [ha, hf, emit]
  · simp [ha, emit]

theorem ensureRgbaPng_fs_frame (w : World) (iconPath : String) (st : St) (q : String)
    (h : iconPath ≠ q) :
    lookupFS (ensureRgbaPng w iconPath st).fs q = lookupFS st.fs q := by
  unfold ensureRgbaPng
  cases hl : lookupFS st.fs iconPath with
  | none => rfl
  | some d =>
    by_cases hs : w.sharpOk d <;> simp [hs, emit, writeF, lookup_setFS, h]

theorem rgbaStep_fs_frame (w : World) (iconPath : String) (r c : Bool) (st : St)
    (q : String) (h : iconPath ≠ q) :
    lookupFS (rgbaStep w iconPath r c st).fs q = lookupFS st.fs q := by
  unfold rgbaStep
  split
  · exact ensureRgbaPng_fs_frame w iconPath st q h
  · rfl

theorem trySources_fs_frame (w : World) (iconPath : String) (isPng isIco : Bool)
    (srcs : List String) (st : St) (q : String) (h : iconPath ≠ q) :
    lookupFS (trySources w iconPath isPng isIco srcs st).2.fs q = lookupFS st.fs q := by
  induction srcs generalizing st with
  | nil => rfl
  | cons s rest ih =>
    unfold trySources
    cases hl : lookupFS st.fs s with
    | none => exact ih st
    | some d =>
      dsimp only
      by_cases hi : isIco
      · rw [if_pos hi]
        exact copyF_frame st s iconPath q h
      · rw [if_neg hi]
        repeat' split
        all_goals first
          | exact ih _
          | simp [emit, writeF, lookup_setFS, h]

theorem tier2_fs_frame (w : World) (env : Env) (iconPath : String) (st : St)
    (q : String) (h : iconPath ≠ q) :
    lookupFS (tier2 w env iconPath st).2.fs q = lookupFS st.fs q := by
  unfold tier2
  cases hic : env "ICON" with
  | none => rfl
  | some ic =>
    dsimp only
    by_cases hcond : (truthy (some ic) && startsW ic "http") = true
    · rw [if_pos hcond]
      exact downloadIcon_fs_frame w ic iconPath st q h
    · rw [if_neg hcond]

theorem tier34_fs_frame (w : World) (iconPath defaultPath : String) (created : Bool)
    (st : St) (q : String) (h : iconPath ≠ q) :
    lookupFS (tier34 w iconPath defaultPath created st).2.fs q = lookupFS st.fs q := by
  unfold tier34
  dsimp only
  have htry := trySources_fs_frame w iconPath (endsW iconPath ".png")
    (endsW iconPath ".ico") (possibleSources defaultPath) st q h
  split
  · exact htry
  · split
    · rw [copyF_frame _ _ _ _ h]
      exact htry
    · exact htry

theorem ensure_fs_frame (w : World) (env : Env) (iconPath defaultPath : String)
    (r : Bool) (st : St) (q : String) (h : iconPath ≠ q) :
    lookupFS (ensureIconExists w env iconPath defaultPath r st).fs q =
      lookupFS st.fs q := by
  unfold ensureIconExists
  dsimp only
  split
  · exact rgbaStep_fs_frame w iconPath r true st q h
  · rw [rgbaStep_fs_frame _ _ _ _ _ _ h]
    split
    · exact tier2_fs_frame w env iconPath st q h
    · rw [tier34_fs_frame _ _ _ _ _ _ h]
      exact tier2_fs_frame w env iconPath st q h

/-! ### The win32 ICO-generation stage -/

theorem winIcoStage_filter_icongen (w : World) (env : Env) (st : St)
    (hico : existsFS st.fs (icoPathOf env) = false) :
    ((winIcoStage w env st).events).filter isIcongenEv =
      st.events.filter isIcongenEv ++
        [Event.icongenCall (basePngOf env) "src-tauri/png" (nameStr env ++ "_256")
          icoSizes] := by
  unfold winIcoStage
  rw [if_neg (by simp [hico])]
  dsimp only
  cases hb : lookupFS st.fs (basePngOf env) with
  | some d =>
    by_cases hg : w.icongenOk
    · simp [hg, hb, emit, writeF, List.filter_append, List.filter, isIcongenEv]
    · cases hdl : lookupFS st.fs winDefaultIcon with
      | some d2 =>
        simp [hg, hb, emit, copyF, existsFS, hdl, List.filter_append, List.filter, isIcongenEv]
      | none =>
        simp [hg, hb, emit, copyF, existsFS, hdl, List.filter_append, List.filter, isIcongenEv]
  | none =>
    cases hdl : lookupFS st.fs winDefaultIcon with
    | some d2 =>
      simp [hb, emit, copyF, existsFS, hdl, List.filter_append, List.filter, isIcongenEv]
    | none =>
      simp [hb, emit, copyF, existsFS, hdl, List.filter_append, List.filter, isIcongenEv]

theorem winIcoStage_fallback (w : World) (env : Env) (st : St)
    (hico : existsFS st.fs (icoPathOf env) = false)
    (hg : w.icongenOk = false) (hd : existsFS st.fs winDefaultIcon = true) :
    lookupFS (winIcoStage w env st).fs (icoPathOf env) =
      lookupFS st.fs winDefaultIcon := by
  unfold winIcoStage
  rw [if_neg (by simp [hico])]
  dsimp only
  cases hdl : lookupFS st.fs winDefaultIcon with
  | none => rw [existsFS, hdl] at hd; cases hd
  | some d2 =>
    cases hb : lookupFS st.fs (basePngOf env) with
    | some d =>
      simp [hg, hb, emit, copyF, existsFS, hdl, lookup_setFS]
    | none =>
      simp [hb, emit, copyF, existsFS, hdl, lookup_setFS]

/-! ### Specialised lemmas for composite (`.ico`) targets -/

theorem rgbaStep_not_png (w : World) (iconPath : String) (r c : Bool) (st : St)
    (h : endsW iconPath ".png" = false) : rgbaStep w iconPath r c st = st := by
  unfold rgbaStep
  rw [if_neg (by simp [h])]

theorem downloadIcon_badWrite_ico (w : World) (url dest : String) (st : St)
    (hico : endsW dest ".ico" = true) :
    ((downloadIcon w url dest st).2.events).filter (isBadWrite dest) =
      st.events.filter (isBadWrite dest) := by
  have hpng := ico_not_png hico
  unfold downloadIcon
  by_cases ha : w.axiosAvailable
  · by_cases hf : w.fetchOk url
    · simp [ha, hf, hico, hpng, emit, writeF, List.filter_append, List.filter,
        isBadWrite, reencoded]
    · simp [ha, hf, emit, List.filter_append, List.filter, isBadWrite]
  · simp [ha, emit, List.filter_append, List.filter, isBadWrite]

theorem trySources_badWrite_ico (w : World) (target : String) (isPng : Bool)
    (srcs : List String) (st : St) :
    ((trySources w target isPng true srcs st).2.events).filter (isBadWrite target) =
      st.events.filter (isBadWrite target) := by
  induction srcs generalizing st with
  | nil => rfl
  | cons s rest ih =>
    unfold trySources
    cases hl : lookupFS st.fs s with
    | none => exact ih st
    | some d =>
      dsimp only
      rw [if_pos rfl]
      exact copyF_filter (isBadWrite target) st s target (fun s' => rfl)

theorem tier2_badWrite_ico (w : World) (env : Env) (target : String) (st : St)
    (hico : endsW target ".ico" = true) :
    ((tier2 w env target st).2.events).filter (isBadWrite target) =
      st.events.filter (isBadWrite target) := by
  unfold tier2
  cases hic : env "ICON" with
  | none => rfl
  | some ic =>
    dsimp only
    by_cases hcond : (truthy (some ic) && startsW ic "http") = true
    · rw [if_pos hcond]
      exact downloadIcon_badWrite_ico w ic target st hico
    · rw [if_neg hcond]

theorem tier34_badWrite_ico (w : World) (target defaultPath : String) (created : Bool)
    (st : St) (hico : endsW target ".ico" = true) :
    ((tier34 w target defaultPath created st).2.events).filter (isBadWrite target) =
      st.events.filter (isBadWrite target) := by
  unfold tier34
  dsimp only
  rw [hico]
  have htry := trySources_badWrite_ico w target (endsW target ".png")
    (possibleSources defaultPath) st
  split
  · exact htry
  · split
    · rw [copyF_filter _ _ _ _ (fun s' => rfl), events_emit, filter_app1 _ _ _ rfl]
      exact htry
    · exact htry
/-! ### The remote-fetch tier with a non-http icon source, and
base-configuration and main-pipeline unfolding lemmas -/

theorem tier2_no_http (w : World) (env : Env) (iconPath : String) (st : St)
    (h : ∀ s, env "ICON" = some s → startsW s "http" = false) :
    tier2 w env iconPath st = (false, st) := by
  unfold tier2
  cases hic : env "ICON" with
  | none => rfl
  | some ic =>
    dsimp only
    rw [if_neg]
    simp [h ic hic]

theorem tier2_dropIcon (w : World) (env : Env) (iconPath : String) (st : St) :
    tier2 w (dropIcon env) iconPath st = (false, st) := rfl

theorem updateTauri_identifier (env : Env) (t : TauriConfig) :
    (updateTauri env t).identifier = some (identifierOf env) := rfl

theorem updateTauri_productName (env : Env) (t : TauriConfig) :
    (updateTauri env t).productName = env "TITLE" := rfl

theorem updateBaseConfigs_pake_fields (env : Env) (p : PakeConfig) (t : TauriConfig) :
    (updateBaseConfigs env p t).1.identifier = p.identifier ∧
    (updateBaseConfigs env p t).1.productName = p.productName := ⟨rfl, rfl⟩

theorem main_linux (w : World) (env : Env) (sys : Sys)
    (hv : (missingVars env).isEmpty = true) :
    main w env "linux" sys =
      (0, saveConfigurations (linuxHandler w env
        { sys with pake := (updateBaseConfigs env sys.pake sys.tauri).1,
                   tauri := (updateBaseConfigs env sys.pake sys.tauri).2 })) := by
  unfold main
  rw [if_pos hv]
  dsimp only
  rw [if_pos rfl]

theorem main_darwin (w : World) (env : Env) (sys : Sys)
    (hv : (missingVars env).isEmpty = true) :
    main w env "darwin" sys =
      (0, saveConfigurations (darwinHandler w env
        { sys with pake := (updateBaseConfigs env sys.pake sys.tauri).1,
                   tauri := (updateBaseConfigs env sys.pake sys.tauri).2 })) := by
  unfold main
  rw [if_pos hv]
  dsimp only
  rw [if_neg (by decide), if_pos rfl]

theorem main_win32 (w : World) (env : Env) (sys : Sys)
    (hv : (missingVars env).isEmpty = true) :
    main w env "win32" sys =
      (0, saveConfigurations (win32Handler w env
        { sys with pake := (updateBaseConfigs env sys.pake sys.tauri).1,
                   tauri := (updateBaseConfigs env sys.pake sys.tauri).2 })) := by
  unfold main
  rw [if_pos hv]
  dsimp only
  rw [if_neg (by decide), if_neg (by decide), if_pos rfl]

theorem winIcoStage_genfail_warn (w : World) (env : Env) (st : St)
    (hico : existsFS st.fs (icoPathOf env) = false) (hg : w.icongenOk = false) :
    Event.logWarn "Failed to generate Windows ICO" ∈ (winIcoStage w env st).events := by
  unfold winIcoStage
  rw [if_neg (by simp [hico])]
  dsimp only
  cases hb : lookupFS st.fs (basePngOf env) with
  | some d =>
    cases hdl : lookupFS st.fs winDefaultIcon with
    | some d2 => simp [hg, hb, emit, copyF, existsFS, hdl]
    | none => simp [hg, hb, emit, copyF, existsFS, hdl]
  | none =>
    cases hdl : lookupFS st.fs winDefaultIcon with
    | some d2 => simp [hb, emit, copyF, existsFS, hdl]
    | none => simp [hb, emit, copyF, existsFS, hdl]

/-! ### Claims -/

/-- C1 (counterexample): for an `.icns` (composite-container) target, the
source bytes are NOT copied through: the known-source tier writes bytes
produced by the single-raster resize path to the `.icns` target. -/
theorem c1_counterexample :
    lookupFS (ensureIconExists wAll envNone "src-tauri/icons/Foo.icns"
      "src-tauri/icons/icon.icns" false
      ⟨[("src-tauri/icons/icon.icns", IconData.raw "dflt")], []⟩).fs
      "src-tauri/icons/Foo.icns"
      = some (IconData.resized (IconData.raw "dflt") 256 256) ∧
    Event.fsWrite "src-tauri/icons/Foo.icns"
        (IconData.resized (IconData.raw "dflt") 256 256) ∈
      (ensureIconExists wAll envNone "src-tauri/icons/Foo.icns"
        "src-tauri/icons/icon.icns" false
        ⟨[("src-tauri/icons/icon.icns", IconData.raw "dflt")], []⟩).events ∧
    reencoded (IconData.resized (IconData.raw "dflt") 256 256) = true := by decide

/-- C1 (amended): for every icon-resolution target path ending in `.ico`,
no bytes produced by the single-raster resize/re-encode path are ever
written to the target: every write to it carries verbatim bytes
(downloaded or copied), so the copy-through path is exclusive for the
`.ico` extension.  (The `.icns` extension of the original claim does not
enjoy this: see the counterexample.) -/
theorem c1_ico_copy_through_exclusive (w : World) (env : Env)
    (iconPath defaultPath : String) (r : Bool) (fs : FS)
    (hico : endsW iconPath ".ico" = true) :
    ((ensureIconExists w env iconPath defaultPath r ⟨fs, []⟩).events).filter
      (isBadWrite iconPath) = [] := by
  have hpng := ico_not_png hico
  unfold ensureIconExists
  dsimp only
  split
  · rw [rgbaStep_not_png _ _ _ _ _ hpng]
    rfl
  · rw [rgbaStep_not_png _ _ _ _ _ hpng]
    split
    · rw [tier2_badWrite_ico _ _ _ _ hico]
      rfl
    · rw [tier34_badWrite_ico _ _ _ _ _ hico, tier2_badWrite_ico _ _ _ _ hico]
      rfl

theorem c1_witness :
    ((ensureIconExists wAll envFooIcon "src-tauri/png/Foo_256.ico"
      "src-tauri/png/icon_256.ico" false
      ⟨[("src-tauri/png/icon_256.ico", IconData.raw "dflt")], []⟩).events).filter
      (isBadWrite "src-tauri/png/Foo_256.ico") = [] :=
  c1_ico_copy_through_exclusive wAll envFooIcon "src-tauri/png/Foo_256.ico"
    "src-tauri/png/icon_256.ico" false
    [("src-tauri/png/icon_256.ico", IconData.raw "dflt")] (by decide)

/-- C2 (counterexample): for an icon path that already exists, the call
is NOT always a no-op: with RGBA normalisation requested and a `.png`
path, the existing file is re-encoded (a conversion call) and its bytes
are rewritten. -/
theorem c2_counterexample :
    (ensureIconExists wAll envNone "a.png" "d.png" true
      ⟨[("a.png", IconData.raw "orig")], []⟩).events =
      [Event.sharpOp (IconData.raw "orig"),
       Event.fsWrite "a.png" (IconData.rgba (IconData.raw "orig"))] ∧
    lookupFS (ensureIconExists wAll envNone "a.png" "d.png" true
      ⟨[("a.png", IconData.raw "orig")], []⟩).fs "a.png" ≠
      some (IconData.raw "orig") := by decide

/-- C2 (amended): for an icon path that already exists on disk, the call
is a no-op — bytes unchanged, no network fetch, no conversion call, no
write — provided RGBA normalisation is not requested for a `.png` path
(that optional post-step still runs on existing PNGs and rewrites
them). -/
theorem c2_existing_icon_noop (w : World) (env : Env) (iconPath defaultPath : String)
    (r : Bool) (fs : FS) (hex : existsFS fs iconPath = true)
    (h : r = false ∨ endsW iconPath ".png" = false) :
    ensureIconExists w env iconPath defaultPath r ⟨fs, []⟩ = ⟨fs, []⟩ := by
  unfold ensureIconExists
  dsimp only
  rw [if_pos hex]
  unfold rgbaStep
  rcases h with h | h
  · rw [if_neg (by simp [h])]
  · rw [if_neg (by simp [h])]

theorem c2_witness :
    ensureIconExists wAll envNone "a.png" "d.png" false
      ⟨[("a.png", IconData.raw "x")], []⟩ = ⟨[("a.png", IconData.raw "x")], []⟩ :=
  c2_existing_icon_noop wAll envNone "a.png" "d.png" false
    [("a.png", IconData.raw "x")] (by decide) (Or.inl rfl)

/-- C3 (counterexample): after a completed linux pipeline run, the
framework config carries identifier `com.pake.Foo` but the app-window
config (`pake.json`) is never given an identifier field, so the
identifier is not identical across all three config objects. -/
theorem c3_counterexample :
    (main wAll envFoo "linux" sys0).2.tauri.identifier = some "com.pake.Foo" ∧
    (main wAll envFoo "linux" sys0).2.pake.identifier = none := by decide

/-- C3 (amended): after a completed pipeline run, the identifier equals
`"com.pake." ++ name` and the product name equals the TITLE parameter,
identically across the framework config (`tauri.conf.json`) and the
active Platform Configuration Object; the app-window config
(`pake.json`) is not part of this invariant — its identifier and
productName fields are left exactly as in the template. -/
theorem c3_identifier_coherence (w : World) (env : Env) (platform : String) (sys : Sys)
    (hv : (missingVars env).isEmpty = true)
    (hp : platform = "linux" ∨ platform = "darwin" ∨ platform = "win32") :
    (main w env platform sys).2.tauri.identifier = some (identifierOf env) ∧
    (main w env platform sys).2.tauri.productName = env "TITLE" ∧
    (if platform = "linux" then (main w env platform sys).2.linuxConf
     else if platform = "darwin" then (main w env platform sys).2.macosConf
     else (main w env platform sys).2.windowsConf).identifier =
      some (identifierOf env) ∧
    (if platform = "linux" then (main w env platform sys).2.linuxConf
     else if platform = "darwin" then (main w env platform sys).2.macosConf
     else (main w env platform sys).2.windowsConf).productName = env "TITLE" ∧
    (main w env platform sys).2.pake.identifier = sys.pake.identifier ∧
    (main w env platform sys).2.pake.productName = sys.pake.productName := by
  rcases hp with hp | hp | hp <;> subst hp
  · rw [main_linux w env sys hv]
    refine ⟨rfl, rfl, ?_, ?_, rfl, rfl⟩ <;> (rw [if_pos rfl]; rfl)
  · rw [main_darwin w env sys hv]
    refine ⟨rfl, rfl, ?_, ?_, rfl, rfl⟩ <;> (rw [if_neg (by decide), if_pos rfl]; rfl)
  · rw [main_win32 w env sys hv]
    refine ⟨rfl, rfl, ?_, ?_, rfl, rfl⟩ <;> (rw [if_neg (by decide), if_neg (by decide)]; rfl)

theorem c3_witness :
    (main wAll envFoo "linux" sys0).2.tauri.identifier = some (identifierOf envFoo) ∧
    (main wAll envFoo "linux" sys0).2.pake.identifier = sys0.pake.identifier :=
  ⟨(c3_identifier_coherence wAll envFoo "linux" sys0 (by decide) (Or.inl rfl)).1,
   (c3_identifier_coherence wAll envFoo "linux" sys0 (by decide) (Or.inl rfl)).2.2.2.2.1⟩

/-- C4 (counterexample): a conversion failure in the remote-fetch tier
does NOT cause fallback to the next tier: the tier writes the original
downloaded bytes to the target (and the known-source tier is never
consulted — no copy event, and the written bytes are the raw download,
not derived from any on-disk source). -/
theorem c4_counterexample :
    (ensureIconExists wNoSharp envFooIcon "t.png" "src-tauri/png/icon_512.png" false
      ⟨[("src-tauri/png/icon_512.png", IconData.raw "k512")], []⟩).events =
      [Event.netFetch "http://x/i.png",
       Event.sharpOp (IconData.downloaded "http://x/i.png"),
       Event.logWarn "Icon conversion failed, using original",
       Event.fsWrite "t.png" (IconData.downloaded "http://x/i.png")] ∧
    lookupFS (ensureIconExists wNoSharp envFooIcon "t.png" "src-tauri/png/icon_512.png"
      false ⟨[("src-tauri/png/icon_512.png", IconData.raw "k512")], []⟩).fs "t.png" =
      some (IconData.downloaded "http://x/i.png") := by decide

/-- C4 (amended): icon-tier failures are non-fatal and logged; a fetch
failure makes the remote tier report failure without writing and the
engine proceeds to the known-source/default tiers; a conversion failure
in the known-source tier falls through to the next source; an ICO
generation failure falls back to copying the default composite icon;
but a conversion failure in the remote-fetch tier does not trigger
fallback — the tier writes the original downloaded bytes instead. -/
theorem c4_failures_nonfatal (w : World) (env : Env)
    (url target defaultPath source : String) (st : St) (rest : List String)
    (isPng r : Bool) (d : IconData) :
    (w.axiosAvailable = true → w.fetchOk url = false →
      downloadIcon w url target st =
        (false, emit (emit st (Event.netFetch url))
          (Event.logErr "Failed to download icon"))) ∧
    (lookupFS st.fs source = some d → w.sharpOk d = false →
      trySources w target isPng false (source :: rest) st =
        trySources w target isPng false rest
          (emit (emit st (Event.sharpOp d))
            (Event.logWarn "Failed to generate icon from source"))) ∧
    (existsFS st.fs (icoPathOf env) = false → w.icongenOk = false →
      existsFS st.fs winDefaultIcon = true →
      lookupFS (winIcoStage w env st).fs (icoPathOf env) =
        lookupFS st.fs winDefaultIcon ∧
      Event.logWarn "Failed to generate Windows ICO" ∈ (winIcoStage w env st).events) ∧
    (env "ICON" = some url → startsW url "http" = true →
      w.axiosAvailable = true → w.fetchOk url = false →
      existsFS st.fs target = false →
      ensureIconExists w env target defaultPath r st =
        rgbaStep w target r
          (tier34 w target defaultPath false
            (emit (emit st (Event.netFetch url))
              (Event.logErr "Failed to download icon"))).1
          (tier34 w target defaultPath false
            (emit (emit st (Event.netFetch url))
              (Event.logErr "Failed to download icon"))).2) := by
  refine ⟨?_, ?_, ?_, ?_⟩
  · intro ha hf
    unfold downloadIcon
    rw [ha, hf]
    rfl
  · intro hl hs
    conv_lhs => unfold trySources
    simp [hl, hs]
  · intro hico hg hd
    exact ⟨winIcoStage_fallback w env st hico hg hd,
      winIcoStage_genfail_warn w env st hico hg⟩
  · intro hic hstart ha hf hex
    have hne : (url == "") = false := by
      cases hu : url == "" with
      | false => rfl
      | true =>
        have hu2 : url = "" := by simpa using hu
        rw [hu2] at hstart
        exact absurd hstart (by decide)
    have ht2 : tier2 w env target st =
        (false, emit (emit st (Event.netFetch url))
          (Event.logErr "Failed to download icon")) := by
      unfold tier2
      rw [hic]
      dsimp only
      rw [if_pos (by simp [truthy, hne, hstart])]
      unfold downloadIcon
      rw [ha, hf]
      rfl
    unfold ensureIconExists
    dsimp only
    rw [if_neg (by simp [hex]), ht2]
    rw [if_neg (by simp [emit, hex])]

theorem c4_witness :
    (downloadIcon wNoFetch "http://x/i.png" "t.png" st0 =
      (false, emit (emit st0 (Event.netFetch "http://x/i.png"))
        (Event.logErr "Failed to download icon"))) ∧
    (trySources wNoSharp "t.png" true false ["s.icns"]
        ⟨[("s.icns", IconData.raw "k")], []⟩ =
      trySources wNoSharp "t.png" true false []
        (emit (emit ⟨[("s.icns", IconData.raw "k")], []⟩
          (Event.sharpOp (IconData.raw "k")))
          (Event.logWarn "Failed to generate icon from source"))) ∧
    (lookupFS (winIcoStage wNoFetch envFoo sysW.st).fs (icoPathOf envFoo) =
      lookupFS sysW.st.fs winDefaultIcon ∧
     Event.logWarn "Failed to generate Windows ICO" ∈
      (winIcoStage wNoFetch envFoo sysW.st).events) ∧
    (ensureIconExists wNoFetch envFooIcon "t.png" "d.png" false st0 =
      rgbaStep wNoFetch "t.png" false
        (tier34 wNoFetch "t.png" "d.png" false
          (emit (emit st0 (Event.netFetch "http://x/i.png"))
            (Event.logErr "Failed to download icon"))).1
        (tier34 wNoFetch "t.png" "d.png" false
          (emit (emit st0 (Event.netFetch "http://x/i.png"))
            (Event.logErr "Failed to download icon"))).2) :=
  ⟨(c4_failures_nonfatal wNoFetch envFoo "http://x/i.png" "t.png" "d.png" "s" st0 []
      true false (IconData.raw "k")).1 rfl rfl,
   (c4_failures_nonfatal wNoSharp envFoo "u" "t.png" "d.png" "s.icns"
      ⟨[("s.icns", IconData.raw "k")], []⟩ [] true false (IconData.raw "k")).2.1
      (by decide) rfl,
   (c4_failures_nonfatal wNoFetch envFoo "u" "t.png" "d.png" "s" sysW.st []
      true false (IconData.raw "k")).2.2.1 (by decide) rfl (by decide),
   (c4_failures_nonfatal wNoFetch envFooIcon "http://x/i.png" "t.png" "d.png" "s" st0 []
      true false (IconData.raw "k")).2.2.2 rfl (by decide) rfl rfl (by decide)⟩

/-- C5: if any of the four mandatory environment variables (URL, NAME,
TITLE, NAME_ZH) is absent, the program exits with a non-zero code before
any configuration mutation or file write: the entire system state is
returned unchanged. -/
theorem c5_missing_param_aborts (w : World) (env : Env) (platform : String) (sys : Sys)
    (k : String) (hk : k ∈ requiredEnvVars) (habs : env k = none) :
    main w env platform sys = (1, sys) := by
  have hmem : k ∈ missingVars env := List.mem_filter.2 ⟨hk, by simp [habs]⟩
  have hne : ¬(missingVars env).isEmpty = true := by
    cases hlist : missingVars env with
    | nil => rw [hlist] at hmem; cases hmem
    | cons a l => simp
  unfold main
  rw [if_neg hne]

theorem c5_witness : main wAll envNone "linux" sys0 = (1, sys0) :=
  c5_missing_param_aborts wAll envNone "linux" sys0 "URL" (by decide) rfl

/-- C6: if the host platform is not linux, darwin or win32, the process
exits with status 1 and the filesystem state (hence every one of the
five configuration files) is untouched. -/
theorem c6_unsupported_platform (w : World) (env : Env) (platform : String) (sys : Sys)
    (h1 : platform ≠ "linux") (h2 : platform ≠ "darwin") (h3 : platform ≠ "win32") :
    (main w env platform sys).1 = 1 ∧ (main w env platform sys).2.st = sys.st := by
  unfold main
  by_cases hv : (missingVars env).isEmpty = true
  · rw [if_pos hv]
    dsimp only
    rw [if_neg h1, if_neg h2, if_neg h3]
    exact ⟨rfl, rfl⟩
  · rw [if_neg hv]
    exact ⟨rfl, rfl⟩

theorem c6_witness :
    (main wAll envFoo "freebsd" sys0).1 = 1 ∧
    (main wAll envFoo "freebsd" sys0).2.st = sys0.st :=
  c6_unsupported_platform wAll envFoo "freebsd" sys0 (by decide) (by decide) (by decide)

/-- C7 (counterexample): on win32, when the base raster PNG exists but
the composite ICO target also already exists, the icon generator is
invoked zero times, not exactly once. -/
theorem c7_counterexample :
    existsFS (win32Handler wAll envFoo sysC7).st.fs (basePngOf envFoo) = true ∧
    ((win32Handler wAll envFoo sysC7).st.events).filter isIcongenEv = [] := by decide

/-- C7 (amended): on win32, when the composite ICO target does not
already exist, the engine invokes the icon generator exactly once, with
exactly the size set 16, 32, 48, 64, 128, 256; if generation fails and
the default composite icon exists, that default is copied to the target
path instead. -/
theorem c7_win32_icongen_once (w : World) (env : Env) (sys : Sys)
    (hico : existsFS sys.st.fs (icoPathOf env) = false)
    (hev : sys.st.events = []) :
    ((win32Handler w env sys).st.events).filter isIcongenEv =
      [Event.icongenCall (basePngOf env) "src-tauri/png" (nameStr env ++ "_256")
        icoSizes] ∧
    (w.icongenOk = false → existsFS sys.st.fs winDefaultIcon = true →
      lookupFS (win32Handler w env sys).st.fs (icoPathOf env) =
        lookupFS sys.st.fs winDefaultIcon) := by
  have hbase_png : endsW (basePngOf env) ".png" = true := endsW_append_right (by decide) _
  have hico_ico : endsW (icoPathOf env) ".ico" = true := endsW_append_right (by decide) _
  have hne1 : basePngOf env ≠ icoPathOf env := png_ne_ico hbase_png hico_ico
  have hne2 : basePngOf env ≠ winDefaultIcon := png_ne_ico hbase_png (by decide)
  have hwh : (win32Handler w env sys).st =
      winIcoStage w env (ensureIconExists w env (basePngOf env)
        "src-tauri/png/icon_512.png" true sys.st) := rfl
  have hico1 : existsFS (ensureIconExists w env (basePngOf env)
      "src-tauri/png/icon_512.png" true sys.st).fs (icoPathOf env) = false := by
    unfold existsFS at hico ⊢
    rw [ensure_fs_frame w env _ _ true sys.st _ hne1]
    exact hico
  constructor
  · rw [hwh, winIcoStage_filter_icongen w env _ hico1,
      ensureIconExists_filter isIcongenEv w env _ _ true sys.st
        (fun u => rfl) (fun m => rfl) (fun m => rfl) (fun d => rfl) (fun d => rfl)
        (fun s => rfl),
      hev]
    rfl
  · intro hg hd
    have hd1 : existsFS (ensureIconExists w env (basePngOf env)
        "src-tauri/png/icon_512.png" true sys.st).fs winDefaultIcon = true := by
      unfold existsFS at hd ⊢
      rw [ensure_fs_frame w env _ _ true sys.st _ hne2]
      exact hd
    rw [hwh, winIcoStage_fallback w env _ hico1 hg hd1]
    exact ensure_fs_frame w env _ _ true sys.st _ hne2

theorem c7_witness :
    ((win32Handler wNoFetch envFoo sysW).st.events).filter isIcongenEv =
      [Event.icongenCall (basePngOf envFoo) "src-tauri/png"
        (nameStr envFoo ++ "_256") icoSizes] ∧
    lookupFS (win32Handler wNoFetch envFoo sysW).st.fs (icoPathOf envFoo) =
      lookupFS sysW.st.fs winDefaultIcon :=
  ⟨(c7_win32_icongen_once wNoFetch envFoo sysW (by decide) rfl).1,
   (c7_win32_icongen_once wNoFetch envFoo sysW (by decide) rfl).2 rfl (by decide)⟩

/-- C8: the Base Config Mutator applies each optional override (width,
height, fullscreen, title-bar visibility, tray visibility,
internal-navigation-only) only when its environment variable is present
— absence leaves the pre-existing value unchanged, and a changed value
implies the variable was present — while the target URL, product title
and bundle identifier are set unconditionally on every run. -/
theorem c8_sparse_overrides (env : Env) (p : PakeConfig) (t : TauriConfig) :
    ((env "WIDTH" = none →
        (updateBaseConfigs env p t).1.windows0.width = p.windows0.width) ∧
     (env "HEIGHT" = none →
        (updateBaseConfigs env p t).1.windows0.height = p.windows0.height) ∧
     (env "FULLSCREEN" = none →
        (updateBaseConfigs env p t).1.windows0.fullscreen = p.windows0.fullscreen) ∧
     (env "HIDE_TITLE_BAR" = none →
        (updateBaseConfigs env p t).1.windows0.hide_title_bar =
          p.windows0.hide_title_bar) ∧
     (env "FORCE_INTERNAL_NAVIGATION" = none →
        (updateBaseConfigs env p t).1.windows0.force_internal_navigation =
          p.windows0.force_internal_navigation) ∧
     (env "SHOW_SYSTEM_TRAY" = none →
        (updateBaseConfigs env p t).1.system_tray = p.system_tray)) ∧
    (((updateBaseConfigs env p t).1.windows0.width ≠ p.windows0.width →
        env "WIDTH" ≠ none) ∧
     ((updateBaseConfigs env p t).1.windows0.height ≠ p.windows0.height →
        env "HEIGHT" ≠ none) ∧
     ((updateBaseConfigs env p t).1.windows0.fullscreen ≠ p.windows0.fullscreen →
        env "FULLSCREEN" ≠ none) ∧
     ((updateBaseConfigs env p t).1.windows0.hide_title_bar ≠
        p.windows0.hide_title_bar → env "HIDE_TITLE_BAR" ≠ none) ∧
     ((updateBaseConfigs env p t).1.windows0.force_internal_navigation ≠
        p.windows0.force_internal_navigation →
        env "FORCE_INTERNAL_NAVIGATION" ≠ none) ∧
     ((updateBaseConfigs env p t).1.system_tray ≠ p.system_tray →
        env "SHOW_SYSTEM_TRAY" ≠ none)) ∧
    ((updateBaseConfigs env p t).1.windows0.url = env "URL" ∧
     (updateBaseConfigs env p t).2.productName = env "TITLE" ∧
     (updateBaseConfigs env p t).2.identifier = some (identifierOf env)) := by
  have hw : env "WIDTH" = none →
      (updateBaseConfigs env p t).1.windows0.width = p.windows0.width := by
    intro h
    show applyOpt (env "WIDTH") parseIntJS p.windows0.width = p.windows0.width
    rw [h]
    rfl
  have hh : env "HEIGHT" = none →
      (updateBaseConfigs env p t).1.windows0.height = p.windows0.height := by
    intro h
    show applyOpt (env "HEIGHT") parseIntJS p.windows0.height = p.windows0.height
    rw [h]
    rfl
  have hf : env "FULLSCREEN" = none →
      (updateBaseConfigs env p t).1.windows0.fullscreen = p.windows0.fullscreen := by
    intro h
    show applyOpt (env "FULLSCREEN") (fun s => s == "true") p.windows0.fullscreen =
      p.windows0.fullscreen
    rw [h]
    rfl
  have hhb : env "HIDE_TITLE_BAR" = none →
      (updateBaseConfigs env p t).1.windows0.hide_title_bar =
        p.windows0.hide_title_bar := by
    intro h
    show applyOpt (env "HIDE_TITLE_BAR") (fun s => s == "true")
      p.windows0.hide_title_bar = p.windows0.hide_title_bar
    rw [h]
    rfl
  have hfn : env "FORCE_INTERNAL_NAVIGATION" = none →
      (updateBaseConfigs env p t).1.windows0.force_internal_navigation =
        p.windows0.force_internal_navigation := by
    intro h
    show applyOpt (env "FORCE_INTERNAL_NAVIGATION") (fun s => s == "true")
      p.windows0.force_internal_navigation = p.windows0.force_internal_navigation
    rw [h]
    rfl
  have hs : env "SHOW_SYSTEM_TRAY" = none →
      (updateBaseConfigs env p t).1.system_tray = p.system_tray := by
    intro h
    show applyOpt (env "SHOW_SYSTEM_TRAY")
      (fun s => SysTray.mk (s == "true") (s == "true") (s == "true")) p.system_tray =
      p.system_tray
    rw [h]
    rfl
  exact ⟨⟨hw, hh, hf, hhb, hfn, hs⟩,
    ⟨fun hc hn => hc (hw hn), fun hc hn => hc (hh hn), fun hc hn => hc (hf hn),
     fun hc hn => hc (hhb hn), fun hc hn => hc (hfn hn), fun hc hn => hc (hs hn)⟩,
    rfl, rfl, rfl⟩

theorem c8_witness :
    (updateBaseConfigs envFoo pake0 tauri0).1.windows0.width =
      pake0.windows0.width ∧
    (updateBaseConfigs envFoo pake0 tauri0).1.windows0.url = envFoo "URL" ∧
    (updateBaseConfigs envFoo pake0 tauri0).2.identifier =
      some (identifierOf envFoo) :=
  ⟨(c8_sparse_overrides envFoo pake0 tauri0).1.1 rfl,
   (c8_sparse_overrides envFoo pake0 tauri0).2.2.1,
   (c8_sparse_overrides envFoo pake0 tauri0).2.2.2.2⟩

/-- C9: when every mandatory environment variable is present but set to
the empty string, validation succeeds (only key presence is checked),
the pipeline completes with exit code 0, and the empty NAME yields the
identifier `"com.pake."`. -/
theorem c9_empty_values_pass (w : World) (sys : Sys) (env : Env)
    (hall : ∀ k ∈ requiredEnvVars, (env k).isSome = true)
    (hname : env "NAME" = some "") :
    (missingVars env).isEmpty = true ∧
    identifierOf env = "com.pake." ∧
    (main w env "linux" sys).1 = 0 ∧
    (main w env "linux" sys).2.tauri.identifier = some "com.pake." := by
  have hmv : missingVars env = [] := by
    unfold missingVars
    rw [List.filter_eq_nil_iff]
    intro k hk
    have h := hall k hk
    cases henv : env k with
    | none => rw [henv] at h; cases h
    | some v => simp [henv]
  have hv : (missingVars env).isEmpty = true := by rw [hmv]; rfl
  have hid : identifierOf env = "com.pake." := by
    unfold identifierOf nameStr
    rw [hname]
    rfl
  refine ⟨hv, hid, ?_, ?_⟩
  · rw [main_linux w env sys hv]
  · rw [main_linux w env sys hv]
    show some (identifierOf env) = some "com.pake."
    rw [hid]

theorem c9_witness :
    (missingVars envEmptyVals).isEmpty = true ∧
    identifierOf envEmptyVals = "com.pake." ∧
    (main wAll envEmptyVals "linux" sys0).1 = 0 ∧
    (main wAll envEmptyVals "linux" sys0).2.tauri.identifier = some "com.pake." :=
  c9_empty_values_pass wAll sys0 envEmptyVals (by decide) rfl

/-- C10: when the ICON variable is absent or its value does not start
with "http", icon resolution is identical to a run with ICON removed
from the environment (the value is never consulted), and no network
fetch occurs during the call. -/
theorem c10_non_http_icon_never_consulted (w : World) (env : Env)
    (iconPath defaultPath : String) (r : Bool) (st : St)
    (h : ∀ s, env "ICON" = some s → startsW s "http" = false) :
    ensureIconExists w env iconPath defaultPath r st =
      ensureIconExists w (dropIcon env) iconPath defaultPath r st ∧
    ((ensureIconExists w env iconPath defaultPath r st).events).filter isNetFetchEv =
      st.events.filter isNetFetchEv := by
  have h2 := tier2_no_http w env iconPath st h
  have h3 := tier2_dropIcon w env iconPath st
  constructor
  · unfold ensureIconExists
    rw [h2, h3]
  · unfold ensureIconExists
    dsimp only
    rw [h2]
    split
    · exact rgbaStep_filter _ w iconPath r true st (fun m => rfl) (fun d => rfl)
        (fun d => rfl)
    · rw [rgbaStep_filter _ w iconPath r _ _ (fun m => rfl) (fun d => rfl)
        (fun d => rfl)]
      exact tier34_filter _ w iconPath defaultPath _ _ (fun m => rfl)
        (fun d => rfl) (fun d => rfl) (fun s => rfl)

theorem c10_witness :
    ensureIconExists wAll envLocalIcon "t.png" "d.png" false st0 =
      ensureIconExists wAll (dropIcon envLocalIcon) "t.png" "d.png" false st0 ∧
    ((ensureIconExists wAll envLocalIcon "t.png" "d.png" false st0).events).filter
      isNetFetchEv = st0.events.filter isNetFetchEv :=
  c10_non_http_icon_never_consulted wAll envLocalIcon "t.png" "d.png" false st0
    (fun s hs => by
      have h0 : envLocalIcon "ICON" = some "./local-icon.png" := rfl
      rw [h0] at hs
      cases hs
      decide)

end Pake
